import Mathlib

/-!
Shallow embedding of the `miyee-lab/alt-gan` Discord bot (`src/bot.py`).

The file `src/bot.py` contains the command handlers (`get_account_cmd`,
`refresh_version`, the status rotation and the configuration loading).
The helper classes `AccountManager` (`helpers/account_manager.py`) and
`RobloxVersion` (`helpers/roblox_version.py`) are imported by `bot.py`
but their sources are not part of the repository snapshot; the definitions
below that embed them are modelled from the design document (spec.md) and
carry a doc comment starting with `Modelled from the spec:`.

Timestamps are embedded as `Int` (Python uses `time.time()` floats; all of
the comparisons in the source are order/difference comparisons, which the
integer model reflects). Network fetch outcomes are passed in as an explicit
oracle value `Option (String × Option String)` (`some (version, date)` on
success, `none` on failure), and every operation additionally reports how
many network fetches it performed, so that "exactly one network call"
properties can be stated.
-/

/-! ## Configuration (src/bot.py lines 25-29, 198-199) -/

/-- The configuration surface relevant to the timing parameters.
`getAccCooldown` is the key read by `bot.py` line 28; `versionTTL` models the
TTL setting the spec says the version cache consumes. `none` means the key is
absent from `config.json`. -/
structure Config where
  getAccCooldown : Option Int
  versionTTL : Option Int
  deriving Repr, DecidableEq

/-- The checkout cooldown window:
`GETACC_COOLDOWN = config.get("getAccCooldown", 300)` (bot.py line 28). -/
def GETACC_COOLDOWN (c : Config) : Int :=
  c.getAccCooldown.getD 300

/-- The force-refresh cooldown window: `REFRESH_COOLDOWN = 60` (bot.py
line 199), a module-level constant, not read from the configuration. -/
def REFRESH_COOLDOWN : Int := 60

/-- Modelled from the spec: the version-cache TTL lives in
`helpers/roblox_version.py`, which is absent from `src/`; per the spec it is
externally configurable, defaulting to a documented fallback value when the
key is absent. The fallback value itself is not fixed by the available
sources, so it is a parameter `defaultTTL`. -/
def VERSION_TTL (defaultTTL : Int) (c : Config) : Int :=
  c.versionTTL.getD defaultTTL

/-! ## Requester-keyed timestamp maps

Python dicts keyed by the requester id, holding the timestamp of the last
relevant event. `lookupTime` is `m.get(uid)`; `setTime` is `m[uid] = t`
(observed through `lookupTime`, prepending shadows older entries). -/

def lookupTime : List (Nat × Int) → Nat → Option Int
  | [], _ => none
  | (k, v) :: rest, uid => if k = uid then some v else lookupTime rest uid

def setTime (m : List (Nat × Int)) (uid : Nat) (t : Int) : List (Nat × Int) :=
  (uid, t) :: m

/-! ## Account manager -/

/-- The account-manager state: the durable pool of account strings (the spec
keeps the persisted store and the in-memory pool in lockstep, so one list
embeds both) and the per-requester checkout-cooldown map. -/
structure AMState where
  pool : List String
  cooldowns : List (Nat × Int)
  deriving Repr, DecidableEq

/-- The outcomes `get_account` reports alongside the optional account. -/
inductive GetAccMsg where
  | delivered
  | cooldownWait (remaining : Int)
  | noStock
  deriving Repr, DecidableEq

/-- Whether the requester is inside the checkout-cooldown window: the entry
is present and `now - last < cw`. A requester with no entry is never
blocked. -/
def blocked (cw : Int) (s : AMState) (uid : Nat) (now : Int) : Bool :=
  match lookupTime s.cooldowns uid with
  | some last => decide (now - last < cw)
  | none => false

/-- Modelled from the spec: `helpers/account_manager.py` (class
`AccountManager`, method `get_account`) is absent from `src/`. Per spec
§4.1: (1) if the requester's cooldown entry is present and younger than the
window, refuse with the remaining wait and no mutation; (2) if the pool is
empty, refuse with "no stock" and no mutation; (3) otherwise pop the front
of the pool, persist, set the requester's cooldown entry to `now` and return
the popped account. -/
def get_account (cw : Int) (s : AMState) (uid : Nat) (now : Int) :
    (Option String × GetAccMsg) × AMState :=
  if blocked cw s uid now then
    ((none, .cooldownWait (cw - (now - ((lookupTime s.cooldowns uid).getD 0)))), s)
  else
    match s.pool with
    | [] => ((none, .noStock), s)
    | a :: rest =>
      ((some a, .delivered), { pool := rest, cooldowns := setTime s.cooldowns uid now })

/-- The restore step of `get_account_cmd` (bot.py lines 160-162):
`accounts = account_manager.load_accounts(); accounts.insert(0, acc);
account_manager.save_accounts(accounts)` — re-insert at the front and
persist. The cooldown map is untouched. -/
def restore_account (s : AMState) (acc : String) : AMState :=
  { s with pool := acc :: s.pool }

/-- Modelled from the spec: `AccountManager.stock` returns the current pool
length. -/
def stock (s : AMState) : Nat := s.pool.length

/-! ## The /getacc command handler (bot.py lines 152-167) -/

/-- The user-visible responses of `get_account_cmd`. -/
inductive CmdResponse where
  | sentDM
  | enableDMs
  | refuse (m : GetAccMsg)
  deriving Repr, DecidableEq

/-- Observable events of one `get_account_cmd` run, in program order. -/
inductive CmdEv where
  | savePool (pool : List String)
  | respond (r : CmdResponse)
  | logErr
  | raiseExc
  deriving Repr, DecidableEq

/-- The /getacc handler `get_account_cmd` (bot.py lines 152-167). `dmOk` is the outcome of the
DM delivery attempt (`interaction.user.send`). On delivery failure the
handler re-loads the pool, inserts the account at index 0, saves, responds,
logs and re-raises the exception. -/
def get_account_cmd (cw : Int) (s : AMState) (uid : Nat) (now : Int) (dmOk : Bool) :
    AMState × List CmdEv :=
  let r := get_account cw s uid now
  match r.1.1 with
  | some acc =>
    if dmOk then (r.2, [.respond .sentDM])
    else
      let accounts := acc :: r.2.pool
      ({ r.2 with pool := accounts },
        [.savePool accounts, .respond .enableDMs, .logErr, .raiseExc])
  | none => (r.2, [.respond (.refuse r.1.2)])

/-- A sequence of `get_account` calls, each atomic per the spec's mutual
exclusion requirement (§5: the full read-check-mutate-persist sequence runs
under one lock, so any concurrent execution is one of these interleavings).
Returns the final state and the list of delivered accounts. -/
def run_get_accounts (cw : Int) (s : AMState) : List (Nat × Int) → AMState × List String
  | [] => (s, [])
  | (uid, now) :: rest =>
    let r := get_account cw s uid now
    let r2 := run_get_accounts cw r.2 rest
    (r2.1, r.1.1.toList ++ r2.2)

/-! ## Version cache -/

/-- Modelled from the spec: the `VersionSnapshot` held by
`helpers/roblox_version.py` (absent from `src/`): version, optional date,
and the timestamp of the successful fetch that produced it. -/
structure RVState where
  version : Option String
  date : Option String
  fetchedAt : Int
  deriving Repr, DecidableEq

/-- Modelled from the spec: `RobloxVersion.force_refresh` (absent from
`src/`). Per spec §4.2 it performs an unconditional network call (exactly
one fetch per invocation, the reported `Nat`), replaces the snapshot
wholesale on fetch success, and leaves the snapshot untouched on fetch
failure. It returns the fetched data (`bot.py` reads `data.get("version")`
and `data.get("date")`; on failure the version is absent, which is what
sends `bot.py` into its "Could not fetch" branch). -/
def force_refresh (rv : RVState) (now : Int)
    (result : Option (String × Option String)) :
    (Option String × Option String) × RVState × Nat :=
  match result with
  | some (v, d) => ((some v, d), ⟨some v, d, now⟩, 1)
  | none => ((none, none), rv, 1)

/-- The state touched by the `/refreshversion` handler: the module-level
`refresh_cooldowns` dict (bot.py line 198) and the `RobloxVersion`
snapshot. -/
structure BotState where
  refresh_cooldowns : List (Nat × Int)
  rv : RVState
  deriving Repr, DecidableEq

/-- The user-visible responses of `refresh_version`. -/
inductive RefreshResponse where
  | adminOnly
  | cooldownMsg (wait : Int)
  | refreshedEmbed (version : String) (date : Option String)
  | fetchFailMsg
  deriving Repr, DecidableEq

/-- The version string carried by a `refresh_version` response, if any:
only the success embed contains the version field. -/
def responseVersion : RefreshResponse → Option String
  | .refreshedEmbed v _ => some v
  | _ => none

/-- The /refreshversion handler `refresh_version` (bot.py lines 201-231).
Non-admins are rejected with
no state change. `last = refresh_cooldowns.get(uid, 0)`; if
`now - last < REFRESH_COOLDOWN` the call short-circuits with the remaining
wait (`round(..., 1)` is the identity on integers) and no state change.
Otherwise `refresh_cooldowns[uid] = now` is written first, then
`force_refresh` runs; the response is the embed on success and the
"Could not fetch" message on failure. The final `Nat` is the number of
network fetches performed. -/
def refresh_version (s : BotState) (uid : Nat) (admin : Bool) (now : Int)
    (result : Option (String × Option String)) :
    RefreshResponse × BotState × Nat :=
  if admin = false then (.adminOnly, s, 0)
  else
    let last := (lookupTime s.refresh_cooldowns uid).getD 0
    if now - last < REFRESH_COOLDOWN then
      (.cooldownMsg (REFRESH_COOLDOWN - (now - last)), s, 0)
    else
      let s1 : BotState :=
        { s with refresh_cooldowns := setTime s.refresh_cooldowns uid now }
      let fr := force_refresh s.rv now result
      match fr.1.1 with
      | some v => (.refreshedEmbed v fr.1.2, { s1 with rv := fr.2.1 }, fr.2.2)
      | none => (.fetchFailMsg, { s1 with rv := fr.2.1 }, fr.2.2)

/-! ## Status rotation (bot.py lines 80-90) -/

/-- The four entries of `status_messages` (bot.py lines 80-85), as provider
tags: each renders from Account-Manager or Version-Cache state or is a fixed
advertisement string. -/
inductive StatusProvider where
  | accountStatus
  | getaccAd
  | stockAd
  | versionStatus
  deriving Repr, DecidableEq

/-- The rotation list `status_messages` (bot.py lines 80-85): a fixed
ordered list of four providers. -/
def status_messages : List StatusProvider :=
  [.accountStatus, .getaccAd, .stockAd, .versionStatus]

/-- The index computed by `update_status` (bot.py line 89):
`update_status.current_loop % len(status_messages)`. -/
def update_status_index (current_loop : Nat) : Nat :=
  current_loop % status_messages.length

/-- The provider selected on tick `n`:
`status_messages[update_status_index n]`. -/
def selected_provider (n : Nat) : StatusProvider :=
  status_messages.getD (update_status_index n) .accountStatus

/-! ## Theorems -/

/-- C8: the rotating status display is a pure function of the tick counter:
the provider list has fixed length 4, tick `n` selects the provider at index
`n % 4`, and the selection is periodic in `n` with period equal to the list
length; it reads no other state. -/
theorem C8_status_rotation_pure (n : Nat) :
    status_messages.length = 4 ∧
    update_status_index n = n % 4 ∧
    selected_provider (n + status_messages.length) = selected_provider n := by
  refine ⟨rfl, rfl, ?_⟩
  simp [selected_provider, update_status_index, status_messages]

/-- Witness for C8 at tick 5. -/
theorem C8_status_rotation_pure_witness :
    selected_provider (5 + status_messages.length) = selected_provider 5 :=
  (C8_status_rotation_pure 5).2.2

/-- C9: a requester with no entry in `refresh_cooldowns` defaults to a last
refresh time of 0 (`refresh_cooldowns.get(uid, 0)`), so whenever the clock
is at least the 60-second window the first `refresh_version` call by that
requester is not short-circuited: it performs the network fetch and records
the requester's cooldown entry. -/
theorem C9_first_refresh_not_blocked (s : BotState) (uid : Nat) (now : Int)
    (result : Option (String × Option String))
    (hnone : lookupTime s.refresh_cooldowns uid = none)
    (hnow : REFRESH_COOLDOWN ≤ now) :
    (refresh_version s uid true now result).2.2 = 1 ∧
    (refresh_version s uid true now result).2.1.refresh_cooldowns
      = setTime s.refresh_cooldowns uid now := by
  have hlt : ¬ (now - ((lookupTime s.refresh_cooldowns uid).getD 0) < REFRESH_COOLDOWN) := by
    rw [hnone]
    simp only [Option.getD_none]
    omega
  rcases result with _ | ⟨v, d⟩ <;>
    simp [refresh_version, hlt, force_refresh]

/-- Witness for C9: empty cooldown map, clock at 100. -/
theorem C9_first_refresh_not_blocked_witness :
    lookupTime (BotState.mk [] ⟨none, none, 0⟩).refresh_cooldowns 7 = none ∧
    REFRESH_COOLDOWN ≤ (100 : Int) ∧
    (refresh_version ⟨[], ⟨none, none, 0⟩⟩ 7 true 100 none).2.2 = 1 :=
  ⟨rfl, by decide,
    (C9_first_refresh_not_blocked ⟨[], ⟨none, none, 0⟩⟩ 7 100 none rfl (by decide)).1⟩

/-- C3: when a force-refresh is permitted, the requester's refresh-cooldown
entry is set to `now` on the attempt itself, and exactly one fetch is
performed, regardless of the fetch outcome; the snapshot is replaced on
fetch success and left untouched on fetch failure. -/
theorem C3_cooldown_set_on_attempt (s : BotState) (uid : Nat) (now : Int)
    (result : Option (String × Option String))
    (hfree : ¬ (now - ((lookupTime s.refresh_cooldowns uid).getD 0) < REFRESH_COOLDOWN)) :
    (refresh_version s uid true now result).2.1.refresh_cooldowns
      = setTime s.refresh_cooldowns uid now ∧
    (refresh_version s uid true now result).2.2 = 1 ∧
    (refresh_version s uid true now result).2.1.rv
      = (match result with
         | some (v, d) => RVState.mk (some v) d now
         | none => s.rv) := by
  rcases result with _ | ⟨v, d⟩ <;>
    simp [refresh_version, hfree, force_refresh]

/-- Witness for C3: a failed fetch still consumes the cooldown entry and
leaves the snapshot unchanged. -/
theorem C3_cooldown_set_on_attempt_witness :
    (¬ ((100 : Int) - ((lookupTime (BotState.mk [] ⟨some "650", none, 0⟩).refresh_cooldowns 1).getD 0)
        < REFRESH_COOLDOWN)) ∧
    (refresh_version ⟨[], ⟨some "650", none, 0⟩⟩ 1 true 100 none).2.1.refresh_cooldowns
      = setTime [] 1 100 :=
  ⟨by decide, (C3_cooldown_set_on_attempt ⟨[], ⟨some "650", none, 0⟩⟩ 1 100 none (by decide)).1⟩

/-- C1: two force-refresh invocations by the same requester less than the
60-second window apart perform exactly one network fetch in total: the
first (permitted) call fetches once, the second is short-circuited before
any fetch, responds with the remaining wait, and changes no state (the
`refresh_cooldowns` map and the snapshot are both unchanged) — regardless
of the first call's fetch outcome `result1`. -/
theorem C1_refresh_twice_one_fetch (s : BotState) (uid : Nat) (t1 t2 : Int)
    (result1 result2 : Option (String × Option String))
    (hfree : ¬ (t1 - ((lookupTime s.refresh_cooldowns uid).getD 0) < REFRESH_COOLDOWN))
    (horder : t1 ≤ t2)
    (hwin : t2 - t1 < REFRESH_COOLDOWN) :
    (refresh_version s uid true t1 result1).2.2 = 1 ∧
    (refresh_version (refresh_version s uid true t1 result1).2.1 uid true t2 result2).2.2 = 0 ∧
    (refresh_version (refresh_version s uid true t1 result1).2.1 uid true t2 result2).1
      = RefreshResponse.cooldownMsg (REFRESH_COOLDOWN - (t2 - t1)) ∧
    (refresh_version (refresh_version s uid true t1 result1).2.1 uid true t2 result2).2.1
      = (refresh_version s uid true t1 result1).2.1 := by
  rcases result1 with _ | ⟨v, d⟩ <;>
    rcases result2 with _ | ⟨v2, d2⟩ <;>
      simp [refresh_version, hfree, force_refresh, setTime, lookupTime, hwin]

/-- Witness for C1: first fetch fails, second call 30 seconds later is
short-circuited with 30 seconds of cooldown reported. -/
theorem C1_refresh_twice_one_fetch_witness :
    (¬ ((100 : Int) - ((lookupTime (BotState.mk [] ⟨none, none, 0⟩).refresh_cooldowns 1).getD 0)
        < REFRESH_COOLDOWN)) ∧
    (100 : Int) ≤ 130 ∧ (130 : Int) - 100 < REFRESH_COOLDOWN ∧
    (refresh_version (refresh_version ⟨[], ⟨none, none, 0⟩⟩ 1 true 100 none).2.1 1 true 130
        (some ("651", none))).2.2 = 0 :=
  ⟨by decide, by decide, by decide,
    (C1_refresh_twice_one_fetch ⟨[], ⟨none, none, 0⟩⟩ 1 100 130 none (some ("651", none))
      (by decide) (by decide) (by decide)).2.1⟩

/-- C7 counterexample: with version "650" cached, a cooldown-blocked
`refresh_version` call responds only with the remaining wait time; the
response carries no snapshot contents, so the cached snapshot is not
returned to the caller. -/
theorem C7_counterexample :
    (BotState.mk [(1, 100)] ⟨some "650", some "2024-01-01", 90⟩).rv.version = some "650" ∧
    (refresh_version ⟨[(1, 100)], ⟨some "650", some "2024-01-01", 90⟩⟩ 1 true 130
        (some ("651", none))).1 = RefreshResponse.cooldownMsg 30 ∧
    responseVersion (refresh_version ⟨[(1, 100)], ⟨some "650", some "2024-01-01", 90⟩⟩ 1 true 130
        (some ("651", none))).1 ≠ some "650" := by
  refine ⟨rfl, by decide, by decide⟩

/-- C7 (amended): a `refresh_version` call during an active refresh cooldown
is short-circuited with a message reporting only the remaining seconds of
cooldown; it performs no fetch and leaves the whole state — in particular
the cached snapshot — unchanged. The snapshot contents are not part of the
response. -/
theorem C7_cooldown_active_short_circuit (s : BotState) (uid : Nat) (now last : Int)
    (result : Option (String × Option String))
    (hlast : lookupTime s.refresh_cooldowns uid = some last)
    (hwin : now - last < REFRESH_COOLDOWN) :
    (refresh_version s uid true now result).1
      = RefreshResponse.cooldownMsg (REFRESH_COOLDOWN - (now - last)) ∧
    (refresh_version s uid true now result).2.1 = s ∧
    (refresh_version s uid true now result).2.2 = 0 ∧
    responseVersion (refresh_version s uid true now result).1 = none := by
  simp [refresh_version, hlast, hwin, responseVersion]

/-- Witness for C7 (amended) at the counterexample's state. -/
theorem C7_cooldown_active_short_circuit_witness :
    lookupTime (BotState.mk [(1, 100)] ⟨some "650", some "2024-01-01", 90⟩).refresh_cooldowns 1
      = some 100 ∧
    (130 : Int) - 100 < REFRESH_COOLDOWN ∧
    (refresh_version ⟨[(1, 100)], ⟨some "650", some "2024-01-01", 90⟩⟩ 1 true 130
        (some ("651", none))).2.1 = ⟨[(1, 100)], ⟨some "650", some "2024-01-01", 90⟩⟩ :=
  ⟨rfl, by decide,
    (C7_cooldown_active_short_circuit ⟨[(1, 100)], ⟨some "650", some "2024-01-01", 90⟩⟩ 1 130 100
      (some ("651", none)) rfl (by decide)).2.1⟩

/-- C6 counterexample: the force-refresh cooldown window is the constant 60
of bot.py line 199; it is not a (non-constant) function of the external
configuration, i.e. it is not externally configurable. -/
theorem C6_counterexample :
    ¬ ∃ f : Config → Int, (∀ c, f c = REFRESH_COOLDOWN) ∧ ∃ c1 c2, f c1 ≠ f c2 := by
  rintro ⟨f, hconst, c1, c2, hne⟩
  exact hne ((hconst c1).trans (hconst c2).symm)

/-- C6 (amended): the checkout cooldown window is externally configurable
(key `getAccCooldown`) with fallback 300, and the version-cache TTL
(spec-modelled; its helper is absent from src/) is configurable with its
documented fallback; the force-refresh cooldown window, however, is the
hardcoded constant 60, independent of the configuration. -/
theorem C6_timing_parameters :
    GETACC_COOLDOWN ⟨none, none⟩ = 300 ∧
    GETACC_COOLDOWN ⟨some 120, none⟩ = 120 ∧
    REFRESH_COOLDOWN = 60 ∧
    VERSION_TTL 300 ⟨none, none⟩ = 300 ∧
    VERSION_TTL 300 ⟨none, some 45⟩ = 45 := by
  decide

/-- C4: restoring an account re-inserts it at the front of the (persisted)
pool, so an immediately following `get_account` by any requester whose
cooldown is satisfied returns exactly that account, leaving the pool as it
was before the restore. -/
theorem C4_restore_then_get (cw : Int) (s : AMState) (a : String) (uid : Nat) (now : Int)
    (hfree : blocked cw (restore_account s a) uid now = false) :
    (restore_account s a).pool = a :: s.pool ∧
    (get_account cw (restore_account s a) uid now).1.1 = some a ∧
    (get_account cw (restore_account s a) uid now).2.pool = s.pool := by
  have hfree' : blocked cw ⟨a :: s.pool, s.cooldowns⟩ uid now = false := hfree
  refine ⟨rfl, ?_, ?_⟩ <;> simp [get_account, restore_account, hfree']

/-- Witness for C4: restoring "A1" onto pool ["A2"] and checking out. -/
theorem C4_restore_then_get_witness :
    blocked 300 (restore_account ⟨["A2"], []⟩ "A1") 9 1000 = false ∧
    (get_account 300 (restore_account ⟨["A2"], []⟩ "A1") 9 1000).1.1 = some "A1" :=
  ⟨rfl, (C4_restore_then_get 300 ⟨["A2"], []⟩ "A1" 9 1000 rfl).2.1⟩

/-- C5: the delivery-failure restore path of `get_account_cmd` mutates only
the pool: after a failed delivery the requester's checkout-cooldown entry
still reads `now` (set by the successful checkout, never reset by the
restore), so a second `get_account` attempt inside the cooldown window is
refused with no state change — the requester consumes the full window even
though the account returned to the pool. -/
theorem C5_restore_keeps_cooldown (cw : Int) (s : AMState) (uid : Nat) (now now2 : Int)
    (hfree : blocked cw s uid now = false)
    (hpool : s.pool ≠ [])
    (hwin : now2 - now < cw) :
    (get_account_cmd cw s uid now false).1.cooldowns = setTime s.cooldowns uid now ∧
    lookupTime (get_account_cmd cw s uid now false).1.cooldowns uid = some now ∧
    (get_account cw (get_account_cmd cw s uid now false).1 uid now2).1.1 = none ∧
    (get_account cw (get_account_cmd cw s uid now false).1 uid now2).2
      = (get_account_cmd cw s uid now false).1 := by
  obtain ⟨a, rest, hp⟩ : ∃ a rest, s.pool = a :: rest := by
    cases h : s.pool with
    | nil => exact absurd h hpool
    | cons a rest => exact ⟨a, rest, rfl⟩
  have hcmd : (get_account_cmd cw s uid now false).1
      = AMState.mk (a :: rest) ((uid, now) :: s.cooldowns) := by
    simp [get_account_cmd, get_account, hfree, hp, setTime]
  have hb2 : blocked cw (AMState.mk (a :: rest) ((uid, now) :: s.cooldowns)) uid now2 = true := by
    simp [blocked, lookupTime, hwin]
  refine ⟨?_, ?_, ?_, ?_⟩ <;> rw [hcmd]
  · rfl
  · simp [lookupTime]
  · simp [get_account, hb2]
  · simp [get_account, hb2]

/-- Witness for C5: delivery fails, the cooldown entry still blocks a retry
100 seconds later. -/
theorem C5_restore_keeps_cooldown_witness :
    blocked 300 (AMState.mk ["A1"] []) 9 1000 = false ∧
    (AMState.mk ["A1"] []).pool ≠ [] ∧
    (1100 : Int) - 1000 < 300 ∧
    (get_account 300 (get_account_cmd 300 ⟨["A1"], []⟩ 9 1000 false).1 9 1100).1.1 = none :=
  ⟨rfl, by decide, by decide,
    (C5_restore_keeps_cooldown 300 ⟨["A1"], []⟩ 9 1000 1100 rfl (by decide) (by decide)).2.2.1⟩

/-- C10: on delivery failure after a successful checkout, `get_account_cmd`
saves the pool with the account re-inserted at the front strictly before the
exception is re-raised: the event trace is exactly save, respond, log,
raise, the saved pool has the account at its head, and the final persisted
pool again contains the account. -/
theorem C10_restore_persists_before_raise (cw : Int) (s : AMState) (a : String)
    (rest : List String) (uid : Nat) (now : Int)
    (hfree : blocked cw s uid now = false)
    (hpool : s.pool = a :: rest) :
    (get_account_cmd cw s uid now false).2
      = [CmdEv.savePool (a :: rest), CmdEv.respond CmdResponse.enableDMs,
         CmdEv.logErr, CmdEv.raiseExc] ∧
    (get_account_cmd cw s uid now false).1.pool = a :: rest ∧
    a ∈ (get_account_cmd cw s uid now false).1.pool := by
  refine ⟨?_, ?_, ?_⟩ <;>
    simp [get_account_cmd, get_account, hfree, hpool]

/-- Witness for C10 on pool ["A1", "A2"]. -/
theorem C10_restore_persists_before_raise_witness :
    blocked 300 (AMState.mk ["A1", "A2"] []) 9 1000 = false ∧
    (AMState.mk ["A1", "A2"] []).pool = "A1" :: ["A2"] ∧
    (get_account_cmd 300 ⟨["A1", "A2"], []⟩ 9 1000 false).1.pool = "A1" :: ["A2"] :=
  ⟨rfl, rfl,
    (C10_restore_persists_before_raise 300 ⟨["A1", "A2"], []⟩ "A1" ["A2"] 9 1000 rfl rfl).2.1⟩

/-- Every account a run of `get_account` calls either delivers or leaves in
the final pool was already in the initial pool: `get_account` only ever
moves accounts out of the pool, never invents one. -/
theorem run_get_accounts_mem (cw : Int) :
    ∀ (calls : List (Nat × Int)) (s : AMState) (x : String),
      x ∈ (run_get_accounts cw s calls).2 ++ (run_get_accounts cw s calls).1.pool →
      x ∈ s.pool := by
  intro calls
  induction calls with
  | nil =>
    intro s x hx
    simpa [run_get_accounts] using hx
  | cons c rest ih =>
    intro s x hx
    obtain ⟨uid, now⟩ := c
    by_cases hb : blocked cw s uid now
    · exact ih s x (by simpa [run_get_accounts, get_account, hb] using hx)
    · cases hp : s.pool with
      | nil =>
        exact hp ▸ (ih s x (by simpa [run_get_accounts, get_account, hb, hp] using hx))
      | cons a tl =>
        have hx' : x = a ∨
            x ∈ (run_get_accounts cw ⟨tl, setTime s.cooldowns uid now⟩ rest).2 ++
                (run_get_accounts cw ⟨tl, setTime s.cooldowns uid now⟩ rest).1.pool := by
          simpa [run_get_accounts, get_account, hb, hp, List.mem_append, or_assoc] using hx
        rcases hx' with h | h
        · exact h ▸ List.mem_cons_self a tl
        · exact List.mem_cons_of_mem a (ih _ x h)

/-- A run of `get_account` calls starting from a duplicate-free pool keeps
the delivered accounts and the remaining pool jointly duplicate-free. -/
theorem run_get_accounts_nodup (cw : Int) :
    ∀ (calls : List (Nat × Int)) (s : AMState), s.pool.Nodup →
      ((run_get_accounts cw s calls).2 ++ (run_get_accounts cw s calls).1.pool).Nodup := by
  intro calls
  induction calls with
  | nil =>
    intro s h
    simpa [run_get_accounts] using h
  | cons c rest ih =>
    intro s h
    obtain ⟨uid, now⟩ := c
    by_cases hb : blocked cw s uid now
    · simpa [run_get_accounts, get_account, hb] using ih s h
    · cases hp : s.pool with
      | nil =>
        simpa [run_get_accounts, get_account, hb, hp] using ih s h
      | cons a tl =>
        have htl : tl.Nodup := by
          rw [hp] at h
          exact h.of_cons
        have ha : a ∉ tl := by
          rw [hp] at h
          exact (List.nodup_cons.mp h).1
        have hrest := ih ⟨tl, setTime s.cooldowns uid now⟩ htl
        have hnotin : a ∉ (run_get_accounts cw ⟨tl, setTime s.cooldowns uid now⟩ rest).2 ++
            (run_get_accounts cw ⟨tl, setTime s.cooldowns uid now⟩ rest).1.pool := by
          intro hmem
          exact ha (run_get_accounts_mem cw rest ⟨tl, setTime s.cooldowns uid now⟩ a hmem)
        have : (a :: ((run_get_accounts cw ⟨tl, setTime s.cooldowns uid now⟩ rest).2 ++
            (run_get_accounts cw ⟨tl, setTime s.cooldowns uid now⟩ rest).1.pool)).Nodup :=
          List.nodup_cons.mpr ⟨hnotin, hrest⟩
        simpa [run_get_accounts, get_account, hb, hp] using this

/-- C2: at-most-once delivery. Under the spec's mutual-exclusion requirement
each `get_account` call is atomic, so any concurrent execution is one of the
call sequences below; for every such sequence starting from a pool of
pairwise-distinct accounts, the list of delivered accounts is duplicate-free:
no two calls ever return the same account. -/
theorem C2_at_most_once_delivery (cw : Int) (s : AMState) (calls : List (Nat × Int))
    (h : s.pool.Nodup) :
    ((run_get_accounts cw s calls).2).Nodup := by
  have hall := run_get_accounts_nodup cw calls s h
  exact (List.nodup_append.mp hall).1

/-- Witness for C2: three callers against the pool ["A1", "A2"]; two get
distinct accounts, the third is refused. -/
theorem C2_at_most_once_delivery_witness :
    (AMState.mk ["A1", "A2"] []).pool.Nodup ∧
    ((run_get_accounts 300 ⟨["A1", "A2"], []⟩ [(1, 1000), (2, 1001), (3, 1002)]).2).Nodup :=
  ⟨by decide,
    C2_at_most_once_delivery 300 ⟨["A1", "A2"], []⟩ [(1, 1000), (2, 1001), (3, 1002)] (by decide)⟩
